import Mathlib

set_option maxRecDepth 8000

/-!
Shallow embedding of the paginated bulk-ingestion subsystem of the
GovInfo scripts (`govinfo_cli.py` and `govinfo_sql_ingest.py`).

HTTP servers are modelled as functions from the request cursor to an
optional parsed JSON page; `none` models a request that raises
`requests.RequestException` or whose body fails JSON decoding.  The
page-fetching loops are embedded with an explicit fuel parameter (the
Python loops are `while True:`); exhausted fuel yields `none`, meaning
"the loop is still running after that many iterations".  Each loop also
returns a ghost trace of the page requests it issued, which the Python
performs as side effects.
-/

/-- One item of a discovery page.  `packageId` models the value of
`item.get("packageId") or item.get("package_id")` and `dateIssued` models
`item.get("dateIssued") or item.get("date_issued")` (`govinfo_cli.py`
lines 363-370); the empty string is kept here because the Python code
tests falsiness at the use site. -/
structure Item where
  packageId : Option String
  dateIssued : Option String
deriving DecidableEq

/-- Parsed JSON body of one response of the `published` endpoint.  A field is
`some l` when the corresponding key is present and holds a list (the
`isinstance(data.get(key), list)` test of `govinfo_cli.py` line 355). -/
structure CliPage where
  packages : Option (List Item)
  results : Option (List Item)
  records : Option (List Item)
  nextPage : Option String
deriving DecidableEq

/-- `PackageRecord` of `govinfo_cli.py` lines 114-130.  The `raw` field (a
copy of the source item, kept for debugging and never read by any later
code path) is omitted. -/
structure PackageRecord where
  package_id : String
  date_issued : Option String
deriving DecidableEq

/-- The item-list extraction of `govinfo_cli.py` lines 352-357: the first of
the keys `packages`, `results`, `records` that holds a list wins, even when
that list is empty. -/
def pageItems (d : CliPage) : List Item :=
  match d.packages with
  | some l => l
  | none =>
    match d.results with
    | some l => l
    | none => d.records.getD []

/-- `if not pkg_id: continue` (`govinfo_cli.py` lines 364-367): an item whose
identifier is absent or empty is skipped. -/
def itemId (it : Item) : Option String :=
  match it.packageId with
  | none => none
  | some pid => if pid = "" then none else some pid

/-- The record built from one usable item (`govinfo_cli.py` line 370). -/
def itemRecord (it : Item) : Option PackageRecord :=
  match itemId it with
  | none => none
  | some pid => some ⟨pid, it.dateIssued⟩

/-- Records extracted from a page's item list, in order. -/
def recsOf (items : List Item) : List PackageRecord :=
  items.filterMap itemRecord

/-- The inner `for item in items:` loop of `govinfo_cli.py` lines 363-376.
`Sum.inl` is the early `return packages` taken when the `max_packages` cap
is reached (the check runs after each append); `Sum.inr` means the loop ran
to completion and pagination continues. -/
def processItems (maxPackages : Option Nat) :
    List Item → List PackageRecord → Sum (List PackageRecord) (List PackageRecord)
  | [], acc => Sum.inr acc
  | it :: rest, acc =>
    match itemId it with
    | none => processItems maxPackages rest acc
    | some pid =>
      let acc' := acc ++ [⟨pid, it.dateIssued⟩]
      match maxPackages with
      | some m =>
        if m ≤ acc'.length then Sum.inl acc'
        else processItems maxPackages rest acc'
      | none => processItems maxPackages rest acc'

/-- Does `pat` occur as a contiguous substring (Python `pat in s`)? -/
def hasSub (pat : List Char) : List Char → Bool
  | [] => pat.isPrefixOf []
  | c :: r => pat.isPrefixOf (c :: r) || hasSub pat r

/-- Split a character list at every occurrence of `sep`
(Python `s.split(sep)` for a one-character separator). -/
def splitOnCh (sep : Char) : List Char → List (List Char)
  | [] => [[]]
  | c :: r =>
    let rest := splitOnCh sep r
    if c = sep then [] :: rest
    else
      match rest with
      | h :: t => (c :: h) :: t
      | [] => [[c]]

/-- Model of `urlparse(url).query`: the text after the first `?` of the part
before the first `#` (empty when there is no `?`). -/
def urlQuery (s : List Char) : List Char :=
  let beforeFrag := s.takeWhile (· ≠ '#')
  match beforeFrag.dropWhile (· ≠ '?') with
  | [] => []
  | _ :: r => r

/-- Model of `parse_qs(query).get("offsetMark")` followed by `values[0]`
(`govinfo_cli.py` lines 266-270): chunks are split on `&`, a chunk without
`=` or with an empty value is dropped, and the first value listed under the
`offsetMark` key is returned.  Percent-decoding is not modelled (the cursors
the API emits contain no escapes). -/
def parseQsOffsetMark (np : String) : Option String :=
  let q := urlQuery np.toList
  let chunks := splitOnCh '&' q
  let vals := chunks.filterMap (fun ch =>
    let name := ch.takeWhile (· ≠ '=')
    match ch.dropWhile (· ≠ '=') with
    | [] => none
    | _ :: v =>
      if v = [] then none
      else if name = "offsetMark".toList then some (String.mk v) else none)
  vals.head?

/-- `next_offset_from_nextpage` of `govinfo_cli.py` lines 253-273. -/
def next_offset_from_nextpage (nextPage : Option String) : Option String :=
  match nextPage with
  | none => none
  | some np =>
    if np = "" then none
    else
      if hasSub "offsetMark=".toList np.toList ∧ "http".toList.isPrefixOf np.toList then
        match parseQsOffsetMark np with
        | some v => some v
        | none => some np
      else some np

/-- The `while True:` pagination loop of `fetch_published_packages`
(`govinfo_cli.py` lines 324-393), with fuel and a ghost trace of issued page
requests.  Each trace entry is the cursor sent together with the number of
records accumulated when the request was issued.  `server c = none` models a
`requests` error or a JSON-decode error on the request for cursor `c`, which
the Python catches and turns into `break`. -/
def fetchGoT (server : String → Option CliPage) (maxPackages : Option Nat) :
    Nat → List PackageRecord → String → List String → List (String × Nat) →
    Option (List PackageRecord) × List (String × Nat)
  | 0, _, _, _, tr => (none, tr)
  | fuel + 1, acc, offsetMark, seen, tr =>
    let tr' := tr ++ [(offsetMark, acc.length)]
    match server offsetMark with
    | none => (some acc, tr')
    | some data =>
      let items := pageItems data
      if items.isEmpty then (some acc, tr')
      else
        match processItems maxPackages items acc with
        | Sum.inl acc' => (some acc', tr')
        | Sum.inr acc' =>
          match next_offset_from_nextpage data.nextPage with
          | none => (some acc', tr')
          | some nextOffset =>
            if seen.contains nextOffset then (some acc', tr')
            else fetchGoT server maxPackages fuel acc' nextOffset (nextOffset :: seen) tr'

/-- `fetch_published_packages` with its ghost request trace: the loop starts
at the sentinel cursor `*` with an empty seen-cursor set
(`govinfo_cli.py` lines 324-327). -/
def fetch_published_packagesT (server : String → Option CliPage)
    (maxPackages : Option Nat) (fuel : Nat) :
    Option (List PackageRecord) × List (String × Nat) :=
  fetchGoT server maxPackages fuel [] "*" [] []

/-- The value `fetch_published_packages` returns (`none` = still looping
after `fuel` iterations). -/
def fetch_published_packages (server : String → Option CliPage)
    (maxPackages : Option Nat) (fuel : Nat) : Option (List PackageRecord) :=
  (fetch_published_packagesT server maxPackages fuel).1

example :
    fetch_published_packages
      (fun c =>
        if c = "*" then
          some ⟨some [⟨some "A", some "2019-05-01"⟩], none, none, some "c1"⟩
        else if c = "c1" then
          some ⟨some [⟨some "B", none⟩], none, none, none⟩
        else none)
      none 5 = some [⟨"A", some "2019-05-01"⟩, ⟨"B", none⟩] := by decide

/-! ## Destination-path derivation (`govinfo_cli.py` lines 222-251, 540-557) -/

/-- Head of `package_id.split("-", 1)`: the characters before the first `-`. -/
def pySplit1Head (sep : Char) : List Char → List Char
  | [] => []
  | c :: r => if c = sep then [] else c :: pySplit1Head sep r

/-- `package_collection_code` of `govinfo_cli.py` lines 222-228. -/
def package_collection_code (package_id : String) : String :=
  if package_id.toList.contains '-' then String.mk (pySplit1Head '-' package_id.toList)
  else "UNKNOWN"

def isDig (c : Char) : Bool := '0' ≤ c && c ≤ '9'

def digVal (c : Char) : Nat := c.toNat - '0'.toNat

/-- `%Y` of Python `strptime`: exactly four digits. -/
def parseY : List Char → Option (Nat × List Char)
  | a :: b :: c :: d :: r =>
    if isDig a && isDig b && isDig c && isDig d then
      some (digVal a * 1000 + digVal b * 100 + digVal c * 10 + digVal d, r)
    else none
  | _ => none

/-- `%m` of Python `strptime`, alternatives of the regex `1[0-2]|0[1-9]|[1-9]`
in order. -/
def parseMonthAlts (s : List Char) : List (Nat × List Char) :=
  (match s with
   | a :: b :: r =>
     (if a = '1' && '0' ≤ b && b ≤ '2' then [(10 + digVal b, r)] else []) ++
     (if a = '0' && '1' ≤ b && b ≤ '9' then [(digVal b, r)] else [])
   | _ => []) ++
  (match s with
   | a :: r => if '1' ≤ a && a ≤ '9' then [(digVal a, r)] else []
   | [] => [])

/-- `%d` of Python `strptime`, regex `3[01]|[12]\d|0[1-9]|[1-9]`. -/
def parseDayAlts (s : List Char) : List (Nat × List Char) :=
  (match s with
   | a :: b :: r =>
     (if a = '3' && ('0' ≤ b && b ≤ '1') then [(30 + digVal b, r)] else []) ++
     (if (a = '1' || a = '2') && isDig b then [(digVal a * 10 + digVal b, r)] else []) ++
     (if a = '0' && '1' ≤ b && b ≤ '9' then [(digVal b, r)] else [])
   | _ => []) ++
  (match s with
   | a :: r => if '1' ≤ a && a ≤ '9' then [(digVal a, r)] else []
   | [] => [])

/-- `%H` of Python `strptime`, regex `2[0-3]|[0-1]\d|\d`. -/
def parseHourAlts (s : List Char) : List (Nat × List Char) :=
  (match s with
   | a :: b :: r =>
     (if a = '2' && '0' ≤ b && b ≤ '3' then [(20 + digVal b, r)] else []) ++
     (if (a = '0' || a = '1') && isDig b then [(digVal a * 10 + digVal b, r)] else [])
   | _ => []) ++
  (match s with
   | a :: r => if isDig a then [(digVal a, r)] else []
   | [] => [])

/-- `%M` and `%S` of Python `strptime`, regex `[0-5]\d|\d`. -/
def parseMinSecAlts (s : List Char) : List (Nat × List Char) :=
  (match s with
   | a :: b :: r =>
     if '0' ≤ a && a ≤ '5' && isDig b then [(digVal a * 10 + digVal b, r)] else []
   | _ => []) ++
  (match s with
   | a :: r => if isDig a then [(digVal a, r)] else []
   | [] => [])

/-- A literal character of a `strptime` format. -/
def lit (c : Char) : List Char → Option (List Char)
  | x :: r => if x = c then some r else none
  | [] => none

/-- Backtracking over regex alternatives: try each alternative in order and
keep the first whose continuation succeeds. -/
def tryAlts {α : Type} (alts : List (Nat × List Char)) (k : Nat → List Char → Option α) :
    Option α :=
  match alts with
  | [] => none
  | (v, r) :: rest =>
    match k v r with
    | some x => some x
    | none => tryAlts rest k

/-- Full match of the format `%Y-%m-%d` against `s`. -/
def matchYmd (s : List Char) : Option (Nat × Nat × Nat) :=
  match parseY s with
  | none => none
  | some (y, r1) =>
    match lit '-' r1 with
    | none => none
    | some r2 =>
      tryAlts (parseMonthAlts r2) (fun m r3 =>
        match lit '-' r3 with
        | none => none
        | some r4 =>
          tryAlts (parseDayAlts r4) (fun d r5 =>
            if r5 = [] then some (y, m, d) else none))

/-- Match of `T%H:%M:%S` followed by `tail` and end of input, continuing a
date match. -/
def matchTimeTail (tail : List Char) (r5 : List Char) : Bool :=
  match lit 'T' r5 with
  | none => false
  | some r6 =>
    (tryAlts (parseHourAlts r6) (fun _ r7 =>
      match lit ':' r7 with
      | none => none
      | some r8 =>
        tryAlts (parseMinSecAlts r8) (fun _ r9 =>
          match lit ':' r9 with
          | none => none
          | some r10 =>
            tryAlts (parseMinSecAlts r10) (fun _ r11 =>
              if r11 = tail then some () else none)))).isSome

/-- Full match of `%Y-%m-%dT%H:%M:%S` (with `tail = []`) or
`%Y-%m-%dT%H:%M:%SZ` (with `tail = ['Z']`). -/
def matchYmdT (tail : List Char) (s : List Char) : Option (Nat × Nat × Nat) :=
  match parseY s with
  | none => none
  | some (y, r1) =>
    match lit '-' r1 with
    | none => none
    | some r2 =>
      tryAlts (parseMonthAlts r2) (fun m r3 =>
        match lit '-' r3 with
        | none => none
        | some r4 =>
          tryAlts (parseDayAlts r4) (fun d r5 =>
            if matchTimeTail tail r5 then some (y, m, d) else none))

def isLeap (y : Nat) : Bool := (y % 4 = 0 && y % 100 ≠ 0) || y % 400 = 0

def daysInMonth (y m : Nat) : Nat :=
  if m = 2 then (if isLeap y then 29 else 28)
  else if m = 4 || m = 6 || m = 9 || m = 11 then 30
  else 31

/-- Validity check performed by the `datetime` constructor (year at least 1,
day within the month). -/
def validDate (y m d : Nat) : Bool :=
  1 ≤ y && 1 ≤ d && d ≤ daysInMonth y m

/-- `strptime(s, fmt).year` as an `Option`: `none` when the regex does not
match or the date is invalid (both raise `ValueError` in Python). -/
def strptimeYear (fmtMatch : List Char → Option (Nat × Nat × Nat)) (s : List Char) :
    Option Nat :=
  match fmtMatch s with
  | none => none
  | some (y, m, d) => if validDate y m d then some y else none

/-- `package_year_from_date` of `govinfo_cli.py` lines 231-250: the three
formats are tried on `date_issued[:19]`, then the first four characters are
used when they are all digits, and otherwise the sentinel is returned. -/
def package_year_from_date (date_issued : Option String) : String :=
  match date_issued with
  | none => "unknown_year"
  | some d =>
    if d = "" then "unknown_year"
    else
      let t := d.toList.take 19
      match strptimeYear matchYmd t with
      | some y => toString y
      | none =>
        match strptimeYear (matchYmdT ['Z']) t with
        | some y => toString y
        | none =>
          match strptimeYear (matchYmdT []) t with
          | some y => toString y
          | none =>
            let y4 := d.toList.take 4
            if y4 ≠ [] && y4.all isDig then String.mk y4 else "unknown_year"

/-- The destination path built at `govinfo_cli.py` line 557:
`base_output_dir / collection_code / year / f"{package_id}.{fmt}"`. -/
def destinationPath (base : String) (pkg : PackageRecord) (fmt : String) : String :=
  base ++ "/" ++ package_collection_code pkg.package_id ++ "/" ++
    package_year_from_date pkg.date_issued ++ "/" ++ pkg.package_id ++ "." ++ fmt

example : package_year_from_date (some "2019-05-01") = "2019" := by decide
example : package_year_from_date (some "2019-05-01T12:00:00Z") = "2019" := by decide
example : package_year_from_date (some "hello") = "unknown_year" := by decide
example : package_year_from_date (some "19xx") = "unknown_year" := by decide
example : package_year_from_date (some "2024zz") = "2024" := by decide
example : package_year_from_date (some "0019-05-01") = "19" := by decide
example : package_year_from_date (some "0000-05-01") = "0000" := by decide
example : package_collection_code "BILLS-116hr34enr" = "BILLS" := by decide
example : package_collection_code "NODASH" = "UNKNOWN" := by decide
example :
    destinationPath "ROOT" ⟨"BILLS-116hr34enr", some "2019-05-01"⟩ "pdf" =
      "ROOT/BILLS/2019/BILLS-116hr34enr.pdf" := by decide

/-! ## Retrying downloader (`govinfo_cli.py` lines 441-500) -/

/-- Server and filesystem behaviour of one download attempt.
* `http503 ra`: the response has status 503 with `Retry-After` header `ra`
  (`none` when the header is absent);
* `reqError`: a `requests.RequestException` is raised during the attempt
  (connection failure, timeout, a `raise_for_status` error such as 500, or a
  streaming failure) — the Python `except` clause catches exactly these;
* `success fsOk`: the response is successful; `fsOk = false` means a
  filesystem operation (`mkdir`, `open`, `write`) raises `OSError`. -/
inductive AttemptOutcome where
  | http503 (retryAfter : Option String)
  | reqError
  | success (fsOk : Bool)
deriving DecidableEq

/-- `time.sleep(5 * attempt)`, the linear backoff of `govinfo_cli.py`
line 497, in seconds. -/
def backoffSleep (attempt : Nat) : Int := Int.ofNat (5 * attempt)

/-- An exception escaping `download_with_retries`. -/
inductive PyError where
  | valueError
  | osError
deriving DecidableEq

def isPySpace (c : Char) : Bool := c = ' ' || c = '\t' || c = '\n' || c = '\r'

def digitsToNat (ds : List Char) : Nat :=
  ds.foldl (fun n c => n * 10 + digVal c) 0

/-- Digits of a Python integer literal body: nonempty, all decimal digits. -/
def natDigits (ds : List Char) : Option Nat :=
  if ds ≠ [] && ds.all isDig then some (digitsToNat ds) else none

/-- Model of Python `int(s)` for decimal strings: surrounding whitespace is
stripped, one optional sign is allowed, and the rest must be nonempty digits
(digit-group underscores are not modelled; the API sends plain integers).
`none` models the `ValueError` raised otherwise. -/
def pyParseInt (s : String) : Option Int :=
  let t := ((s.toList.dropWhile isPySpace).reverse.dropWhile isPySpace).reverse
  match t with
  | '+' :: ds => (natDigits ds).map Int.ofNat
  | '-' :: ds => (natDigits ds).map (fun n => -(Int.ofNat n))
  | ds => (natDigits ds).map Int.ofNat

/-- The `while attempt <= max_retries:` loop of `download_with_retries`
(`govinfo_cli.py` lines 463-500).  The state is the Python `attempt`
counter; `fuel` is kept equal to `maxRetries + 1 - attempt`, so the fuel-0
case coincides with the loop condition turning false (the loop body always
increments `attempt`).  `sleeps` is the ghost trace of `time.sleep` calls,
in seconds.  The result carries the returned boolean, the final value of
`attempt` (the number of attempts made) and the sleep trace; `Except.error`
models an exception escaping the function: `valueError` from `int()` on a
malformed `Retry-After` header or from `time.sleep` on a negative wait,
`osError` from a failed filesystem operation. -/
def downloadGo (outcomes : Nat → AttemptOutcome) (maxRetries : Nat) :
    Nat → Nat → List Int → Except PyError (Bool × Nat × List Int)
  | _, 0, sleeps => Except.ok (false, maxRetries + 1, sleeps)
  | attempt, fuel + 1, sleeps =>
    if attempt ≤ maxRetries then
      let attempt' := attempt + 1
      match outcomes attempt' with
      | AttemptOutcome.http503 ra =>
        match pyParseInt (ra.getD "30") with
        | none => Except.error PyError.valueError
        | some n =>
          if n < 0 then Except.error PyError.valueError
          else downloadGo outcomes maxRetries attempt' fuel (sleeps ++ [n])
      | AttemptOutcome.reqError =>
        if maxRetries < attempt' then Except.ok (false, attempt', sleeps)
        else downloadGo outcomes maxRetries attempt' fuel (sleeps ++ [backoffSleep attempt'])
      | AttemptOutcome.success fsOk =>
        if fsOk then Except.ok (true, attempt', sleeps)
        else Except.error PyError.osError
    else Except.ok (false, attempt, sleeps)

/-- `download_with_retries(url, dest, max_retries)` under the attempt
behaviour `outcomes` (`outcomes i` is what happens on attempt number `i`,
counting from 1).  `attempt` starts at 0 and the loop can run at most
`maxRetries + 1` times, so fuel `maxRetries + 1` is exact. -/
def download_with_retries (outcomes : Nat → AttemptOutcome) (maxRetries : Nat) :
    Except PyError (Bool × Nat × List Int) :=
  downloadGo outcomes maxRetries 0 (maxRetries + 1) []

/-- The linear-backoff sleeps recorded from the state `attempt` with `fuel`
iterations left, when every attempt fails with `reqError`. -/
def backoffAux (maxRetries : Nat) : Nat → Nat → List Int
  | _, 0 => []
  | attempt, fuel + 1 =>
    if maxRetries < attempt + 1 then []
    else backoffSleep (attempt + 1) :: backoffAux maxRetries (attempt + 1) fuel

example :
    download_with_retries (fun _ => AttemptOutcome.reqError) 3 =
      Except.ok (false, 4, [5, 10, 15]) := rfl

example :
    download_with_retries (fun _ => AttemptOutcome.http503 (some "later")) 3 =
      Except.error PyError.valueError := rfl

example :
    download_with_retries
      (fun i => if i ≤ 2 then AttemptOutcome.http503 (some "2") else AttemptOutcome.success true)
      3 = Except.ok (true, 3, [2, 2]) := rfl

example :
    download_with_retries (fun _ => AttemptOutcome.http503 none) 0 =
      Except.ok (false, 1, [30]) := rfl

example : pyParseInt " 30 " = some 30 := by decide
example : pyParseInt "-5" = some (-5) := by decide
example : pyParseInt "" = none := by decide

/-! ## Ingestion driver (`govinfo_cli.py` lines 396-438, 503-563, 727-737) -/

/-- The parsed summary document of a package, as used by
`download_package_formats`: only its `download` sub-object matters.
`download = none` models a summary without a (truthy) `download` key. -/
structure Summary where
  download : Option (List (String × String))
deriving DecidableEq

/-- `DOWNLOAD_KEY_MAP` of `govinfo_cli.py` lines 102-111. -/
def DOWNLOAD_KEY_MAP : List (String × String) :=
  [("txt", "txtLink"), ("htm", "htmLink"), ("html", "htmLink"), ("xml", "xmlLink"),
   ("pdf", "pdfLink"), ("mods", "modsLink"), ("premis", "premisLink"), ("zip", "zipLink")]

/-- Dictionary lookup in an association list (keys are pairwise distinct in
every dictionary the scripts build). -/
def lookupA (k : String) (l : List (String × String)) : Option String :=
  match l with
  | [] => none
  | (k', v) :: rest => if k' = k then some v else lookupA k rest

def pyStripStr (s : String) : String :=
  String.mk ((s.toList.dropWhile isPySpace).reverse.dropWhile isPySpace).reverse

def pyLower (s : String) : String := String.mk (s.toList.map Char.toLower)

/-- `fmt_list = [f.strip().lower() for f in formats if f.strip()]`
(`govinfo_cli.py` line 526). -/
def fmtListOf (formats : List String) : List String :=
  formats.filterMap (fun f =>
    if pyStripStr f = "" then none else some (pyLower (pyStripStr f)))

/-- What happened to one download dispatch: in dry-run mode the planned
`(url, dest)` pair is only logged; otherwise `download_with_retries` runs
and `ok` is its boolean result. -/
inductive DlAction where
  | planned (url dest : String)
  | attempted (url dest : String) (ok : Bool)
deriving DecidableEq

/-- Classification of one record's processing in `download_package_formats`. -/
inductive PkgStatus where
  | noFormats
  | enrichFailed
  | noDownloads
  | processed
deriving DecidableEq

/-- `download_package_formats` of `govinfo_cli.py` lines 503-563.
`summaries pid` is the result of `fetch_package_summary(api_key, pid)`
(`none` models a request error, a JSON-decode error, or a falsy summary —
lines 424-438 plus the `if not summary` test at line 532); `dlResult url
dest` is the boolean outcome `download_with_retries` would produce for that
pair.  The returned list is the ghost trace of the dispatches performed for
this record; every skip path returns an empty trace. -/
def download_package_formats (summaries : String → Option Summary)
    (dlResult : String → String → Bool) (pkg : PackageRecord)
    (formats : List String) (base : String) (dryRun : Bool) :
    PkgStatus × List DlAction :=
  let fmtList := fmtListOf formats
  if fmtList.isEmpty then (PkgStatus.noFormats, [])
  else
    match summaries pkg.package_id with
    | none => (PkgStatus.enrichFailed, [])
    | some summary =>
      let downloadInfo := summary.download.getD []
      if downloadInfo.isEmpty then (PkgStatus.noDownloads, [])
      else
        let actions := fmtList.filterMap (fun fmt =>
          match lookupA fmt DOWNLOAD_KEY_MAP with
          | none => none
          | some linkKey =>
            match lookupA linkKey downloadInfo with
            | none => none
            | some url =>
              if url = "" then none
              else
                let dest := destinationPath base pkg fmt
                some (if dryRun then DlAction.planned url dest
                      else DlAction.attempted url dest (dlResult url dest)))
        (PkgStatus.processed, actions)

/-- The `for idx, pkg in enumerate(packages, ...)` loop of
`handle_download_command` (`govinfo_cli.py` lines 727-737): every discovered
record is processed by `download_package_formats`, one after the other. -/
def handle_download_loop (summaries : String → Option Summary)
    (dlResult : String → String → Bool) (packages : List PackageRecord)
    (formats : List String) (base : String) (dryRun : Bool) :
    List (PkgStatus × List DlAction) :=
  match packages with
  | [] => []
  | p :: rest =>
    download_package_formats summaries dlResult p formats base dryRun ::
      handle_download_loop summaries dlResult rest formats base dryRun

example :
    handle_download_loop
      (fun pid => if pid = "P3" then none
                  else some ⟨some [("pdfLink", "http://x/" ++ pid ++ ".pdf")]⟩)
      (fun _ _ => true)
      [⟨"P1", none⟩, ⟨"P2", none⟩, ⟨"P3", none⟩]
      ["pdf"] "ROOT" true =
      [(PkgStatus.processed, [DlAction.planned "http://x/P1.pdf" "ROOT/UNKNOWN/unknown_year/P1.pdf"]),
       (PkgStatus.processed, [DlAction.planned "http://x/P2.pdf" "ROOT/UNKNOWN/unknown_year/P2.pdf"]),
       (PkgStatus.enrichFailed, [])] := by decide

/-! ## SQL-ingest discovery (`govinfo_sql_ingest.py` lines 94-165) -/

/-- One item of a `published` page as consumed by
`fetch_packages_for_collection`: the fields the dict comprehension at
`govinfo_sql_ingest.py` lines 150-155 projects out. -/
structure SqlItem where
  packageId : Option String
  dateIssued : Option String
  lastModified : Option String
deriving DecidableEq

/-- Parsed JSON body of one response as read by the SQL-ingest script. -/
structure SqlPage where
  packages : Option (List SqlItem)
  results : Option (List SqlItem)
  nextPage : Option String
deriving DecidableEq

/-- `items = data.get("packages") or data.get("results") or []`
(`govinfo_sql_ingest.py` line 146): Python `or` falls through on a missing
key and on an empty (falsy) list. -/
def sqlItems (d : SqlPage) : List SqlItem :=
  match d.packages with
  | some l => if l.isEmpty then d.results.getD [] else l
  | none => d.results.getD []

def omSep : List Char := "offsetMark=".toList

/-- Scanner for `afterLastOffsetMark`.  Each recursive call shortens the
list by at least one character, so running it with fuel equal to the list
length is exact and the fuel-0 case is never reached on those calls. -/
def afterLastOffsetMarkGo : Nat → List Char → List Char
  | 0, s => s
  | _ + 1, [] => []
  | fuel + 1, c :: r =>
    if omSep.isPrefixOf (c :: r) then
      let rest := (c :: r).drop omSep.length
      if hasSub omSep rest then afterLastOffsetMarkGo fuel rest else rest
    else if hasSub omSep r then afterLastOffsetMarkGo fuel r else c :: r

/-- `nxt.split("offsetMark=")[-1]` (`govinfo_sql_ingest.py` line 161): the
text after the last left-to-right non-overlapping occurrence of the
separator. -/
def afterLastOffsetMark (s : List Char) : List Char :=
  afterLastOffsetMarkGo s.length s

/-- The `while True:` loop of `fetch_packages_for_collection`
(`govinfo_sql_ingest.py` lines 138-165).  In this script `get_json`
(lines 94-99) performs no error handling, so a failing page request —
`server c = none` — propagates the exception out of the function, modelled
as `Except.error ()`.  There is no seen-cursor set and no record cap.  The
outer `Option` is the fuel guard: `none` means the loop is still running
after `fuel` iterations. -/
def sqlFetchGo (server : String → Option SqlPage) :
    Nat → List SqlItem → String → Option (Except Unit (List SqlItem))
  | 0, _, _ => none
  | fuel + 1, acc, offset =>
    match server offset with
    | none => some (Except.error ())
    | some data =>
      let items := sqlItems data
      if items.isEmpty then some (Except.ok acc)
      else
        let acc' := acc ++ items
        match data.nextPage with
        | none => some (Except.ok acc')
        | some nxt =>
          if nxt = "" then some (Except.ok acc')
          else
            let offset' :=
              if hasSub omSep nxt.toList then String.mk (afterLastOffsetMark nxt.toList)
              else nxt
            sqlFetchGo server fuel acc' offset'

/-- `fetch_packages_for_collection(code, start, end)`: the loop starts at the
sentinel cursor `*` with an empty accumulator. -/
def fetch_packages_for_collection (server : String → Option SqlPage) (fuel : Nat) :
    Option (Except Unit (List SqlItem)) :=
  sqlFetchGo server fuel [] "*"

example :
    fetch_packages_for_collection
      (fun c =>
        if c = "*" then some ⟨some [⟨some "A", none, none⟩], none, some "c1"⟩
        else if c = "c1" then some ⟨some [⟨some "B", none, none⟩], none, none⟩
        else none)
      5 = some (Except.ok [⟨some "A", none, none⟩, ⟨some "B", none, none⟩]) := rfl

example :
    afterLastOffsetMark "http://u?offsetMark=abc".toList = "abc".toList := by decide
example :
    afterLastOffsetMark "offsetMark=xoffsetMark=y".toList = "y".toList := by decide

/-! ## Pagination-chain scenarios

A finite server run is described by a list of non-terminal steps
`(cursor, page, nextCursor)`: at `cursor` the server answers `page`, whose
items are nonempty and whose extracted next cursor `nextCursor` is fresh, so
the loop follows it.  `endC` is the cursor the loop is left at after the
steps. -/

/-- Well-formedness of a chain of non-terminal iterations starting with the
seen-cursor set `seen`. -/
def stepsOK (server : String → Option CliPage) :
    List (String × CliPage × String) → List String → String → Bool
  | [], _, _ => true
  | (c, p, n) :: rest, seen, endC =>
    decide (server c = some p) && !(pageItems p).isEmpty &&
    decide (next_offset_from_nextpage p.nextPage = some n) &&
    !(seen.contains n) &&
    (match rest with
     | [] => decide (n = endC)
     | (c', _, _) :: _ => decide (n = c')) &&
    stepsOK server rest (n :: seen) endC

/-- The cursor the chain starts at. -/
def startOf : List (String × CliPage × String) → String → String
  | [], endC => endC
  | (c, _, _) :: _, _ => c

/-- All records of the chain's pages, in order. -/
def allRecs : List (String × CliPage × String) → List PackageRecord
  | [] => []
  | (_, p, _) :: rest => recsOf (pageItems p) ++ allRecs rest

/-- The seen-cursor set after following the chain. -/
def endSeen : List (String × CliPage × String) → List String → List String
  | [], seen => seen
  | (_, _, n) :: rest, seen => endSeen rest (n :: seen)

/-- The request trace of the chain, starting from `k` accumulated records. -/
def traceOf : List (String × CliPage × String) → Nat → List (String × Nat)
  | [], _ => []
  | (c, p, _) :: rest, k => (c, k) :: traceOf rest (k + (recsOf (pageItems p)).length)

lemma processItems_none (items : List Item) (acc : List PackageRecord) :
    processItems none items acc = Sum.inr (acc ++ recsOf items) := by
  induction items generalizing acc with
  | nil => simp [processItems, recsOf]
  | cons it rest ih =>
    cases h : itemId it with
    | none =>
      simp [processItems, h, ih, recsOf, List.filterMap_cons, itemRecord]
    | some pid =>
      simp [processItems, h, ih, recsOf, List.filterMap_cons, itemRecord]

lemma fetchGoT_step (server : String → Option CliPage) (fuel : Nat)
    (acc : List PackageRecord) (c : String) (seen : List String)
    (tr : List (String × Nat)) (p : CliPage) (n : String)
    (hs : server c = some p) (hne : (pageItems p).isEmpty = false)
    (hn : next_offset_from_nextpage p.nextPage = some n)
    (hnotin : seen.contains n = false) :
    fetchGoT server none (fuel + 1) acc c seen tr
      = fetchGoT server none fuel (acc ++ recsOf (pageItems p)) n (n :: seen)
          (tr ++ [(c, acc.length)]) := by
  have hnotin' : ¬ n ∈ seen := by simpa using hnotin
  simp [fetchGoT, hs, hne, hn, hnotin', processItems_none]

lemma fetchGoT_repeat (server : String → Option CliPage) (fuel : Nat)
    (acc : List PackageRecord) (c : String) (seen : List String)
    (tr : List (String × Nat)) (p : CliPage) (n : String)
    (hs : server c = some p) (hne : (pageItems p).isEmpty = false)
    (hn : next_offset_from_nextpage p.nextPage = some n)
    (hin : seen.contains n = true) :
    fetchGoT server none (fuel + 1) acc c seen tr
      = (some (acc ++ recsOf (pageItems p)), tr ++ [(c, acc.length)]) := by
  have hin' : n ∈ seen := by simpa using hin
  simp [fetchGoT, hs, hne, hn, hin', processItems_none]

lemma fetchGoT_error (server : String → Option CliPage) (mp : Option Nat) (fuel : Nat)
    (acc : List PackageRecord) (c : String) (seen : List String)
    (tr : List (String × Nat)) (hs : server c = none) :
    fetchGoT server mp (fuel + 1) acc c seen tr = (some acc, tr ++ [(c, acc.length)]) := by
  simp [fetchGoT, hs]

lemma fetchGoT_chain (server : String → Option CliPage) :
    ∀ (steps : List (String × CliPage × String)) (seen : List String) (endC : String)
      (acc : List PackageRecord) (tr : List (String × Nat)) (fuel : Nat),
    stepsOK server steps seen endC = true →
    fetchGoT server none (steps.length + fuel) acc (startOf steps endC) seen tr
      = fetchGoT server none fuel (acc ++ allRecs steps) endC (endSeen steps seen)
          (tr ++ traceOf steps acc.length) := by
  intro steps
  induction steps with
  | nil =>
    intro seen endC acc tr fuel _
    simp [startOf, allRecs, endSeen, traceOf]
  | cons s rest ih =>
    obtain ⟨c, p, n⟩ := s
    intro seen endC acc tr fuel hOK
    simp only [stepsOK, Bool.and_eq_true, decide_eq_true_eq, Bool.not_eq_true'] at hOK
    obtain ⟨⟨⟨⟨⟨hs, hne⟩, hn⟩, hnotin⟩, hlink⟩, hrest⟩ := hOK
    have hstart : startOf rest endC = n := by
      cases rest with
      | nil =>
        simp only [decide_eq_true_eq] at hlink
        simp only [startOf]
        exact hlink.symm
      | cons s' r' =>
        obtain ⟨c', p', n'⟩ := s'
        simp only [decide_eq_true_eq] at hlink
        simp only [startOf]
        exact hlink.symm
    have hlen : (((c, p, n) :: rest).length + fuel) = (rest.length + fuel) + 1 := by
      rw [List.length_cons]
      omega
    have hstep := fetchGoT_step server (rest.length + fuel) acc c seen tr p n hs hne hn hnotin
    have hih := ih (n :: seen) endC (acc ++ recsOf (pageItems p)) (tr ++ [(c, acc.length)]) fuel hrest
    rw [hstart] at hih
    simp only [startOf]
    rw [hlen, hstep, hih]
    simp [allRecs, endSeen, traceOf, List.append_assoc, List.length_append]

/-! ## Cap invariants for the max-records limit -/

lemma processItems_cap_inl {m : Nat} :
    ∀ (items : List Item) (acc res : List PackageRecord), acc.length < m →
      processItems (some m) items acc = Sum.inl res → res.length ≤ m := by
  intro items
  induction items with
  | nil =>
    intro acc res _ h
    simp [processItems] at h
  | cons it rest ih =>
    intro acc res hlt h
    cases hid : itemId it with
    | none =>
      simp only [processItems, hid] at h
      exact ih acc res hlt h
    | some pid =>
      simp only [processItems, hid] at h
      by_cases hm : m ≤ (acc ++ [(⟨pid, it.dateIssued⟩ : PackageRecord)]).length
      · rw [if_pos hm] at h
        cases h
        simp [List.length_append]
        omega
      · rw [if_neg hm] at h
        refine ih _ res ?_ h
        simp only [List.length_append, List.length_cons, List.length_nil] at hm ⊢
        omega

lemma processItems_cap_inr {m : Nat} :
    ∀ (items : List Item) (acc res : List PackageRecord), acc.length < m →
      processItems (some m) items acc = Sum.inr res → res.length < m := by
  intro items
  induction items with
  | nil =>
    intro acc res hlt h
    simp only [processItems, Sum.inr.injEq] at h
    subst h
    exact hlt
  | cons it rest ih =>
    intro acc res hlt h
    cases hid : itemId it with
    | none =>
      simp only [processItems, hid] at h
      exact ih acc res hlt h
    | some pid =>
      simp only [processItems, hid] at h
      by_cases hm : m ≤ (acc ++ [(⟨pid, it.dateIssued⟩ : PackageRecord)]).length
      · rw [if_pos hm] at h
        simp at h
      · rw [if_neg hm] at h
        refine ih _ res ?_ h
        simp only [List.length_append, List.length_cons, List.length_nil] at hm ⊢
        omega

lemma fetchGoT_cap_invariant (server : String → Option CliPage) (m : Nat) :
    ∀ (fuel : Nat) (acc : List PackageRecord) (c : String) (seen : List String)
      (tr : List (String × Nat)), acc.length < m →
      (∀ res, (fetchGoT server (some m) fuel acc c seen tr).1 = some res → res.length ≤ m) ∧
      (∀ e, e ∈ (fetchGoT server (some m) fuel acc c seen tr).2 → e ∈ tr ∨ e.2 < m) := by
  intro fuel
  induction fuel with
  | zero =>
    intro acc c seen tr hlt
    constructor
    · intro res h
      simp [fetchGoT] at h
    · intro e he
      simp only [fetchGoT] at he
      exact Or.inl he
  | succ f ih =>
    intro acc c seen tr hlt
    have htr' : ∀ e, e ∈ tr ++ [(c, acc.length)] → e ∈ tr ∨ e.2 < m := by
      intro e he
      rcases List.mem_append.mp he with h1 | h2
      · exact Or.inl h1
      · have : e = (c, acc.length) := by simpa using h2
        subst this
        exact Or.inr hlt
    cases hs : server c with
    | none =>
      constructor
      · intro res h
        simp [fetchGoT, hs] at h
        subst h
        omega
      · intro e he
        simp only [fetchGoT, hs] at he
        exact htr' e he
    | some data =>
      cases hemp : (pageItems data).isEmpty with
      | true =>
        constructor
        · intro res h
          simp [fetchGoT, hs, hemp] at h
          subst h
          omega
        · intro e he
          simp [fetchGoT, hs, hemp] at he
          exact htr' e (by simpa using he)
      | false =>
        cases hpi : processItems (some m) (pageItems data) acc with
        | inl acc' =>
          have hle := processItems_cap_inl (pageItems data) acc acc' hlt hpi
          constructor
          · intro res h
            simp [fetchGoT, hs, hemp, hpi] at h
            subst h
            exact hle
          · intro e he
            simp [fetchGoT, hs, hemp, hpi] at he
            exact htr' e (by simpa using he)
        | inr acc' =>
          have hlt' := processItems_cap_inr (pageItems data) acc acc' hlt hpi
          cases hnx : next_offset_from_nextpage data.nextPage with
          | none =>
            constructor
            · intro res h
              simp [fetchGoT, hs, hemp, hpi, hnx] at h
              subst h
              omega
            · intro e he
              simp [fetchGoT, hs, hemp, hpi, hnx] at he
              exact htr' e (by simpa using he)
          | some nx =>
            by_cases hcon : nx ∈ seen
            · constructor
              · intro res h
                simp [fetchGoT, hs, hemp, hpi, hnx, hcon] at h
                subst h
                omega
              · intro e he
                simp [fetchGoT, hs, hemp, hpi, hnx, hcon] at he
                exact htr' e (by simpa using he)
            · obtain ⟨ih1, ih2⟩ := ih acc' nx (nx :: seen) (tr ++ [(c, acc.length)]) hlt'
              constructor
              · intro res h
                refine ih1 res ?_
                simpa [fetchGoT, hs, hemp, hpi, hnx, hcon] using h
              · intro e he
                have he' : e ∈ (fetchGoT server (some m) f acc' nx (nx :: seen)
                    (tr ++ [(c, acc.length)])).2 := by
                  simpa [fetchGoT, hs, hemp, hpi, hnx, hcon] using he
                rcases ih2 e he' with h1 | h2
                · exact htr' e h1
                · exact Or.inr h2

/-! ## Downloader lemmas -/

lemma downloadGo_reqError (outcomes : Nat → AttemptOutcome) (m : Nat)
    (h : ∀ i, outcomes i = AttemptOutcome.reqError) :
    ∀ (fuel attempt : Nat) (sleeps : List Int), attempt + fuel = m + 1 →
      downloadGo outcomes m attempt fuel sleeps
        = Except.ok (false, m + 1, sleeps ++ backoffAux m attempt fuel) := by
  intro fuel
  induction fuel with
  | zero =>
    intro attempt sleeps hinv
    simp [downloadGo, backoffAux]
  | succ f ihf =>
    intro attempt sleeps hinv
    have hat : attempt ≤ m := by omega
    by_cases hbr : m < attempt + 1
    · have hf : f = 0 := by omega
      subst hf
      simp [downloadGo, backoffAux, h (attempt + 1), hat, hbr]
      omega
    · have hrec := ihf (attempt + 1) (sleeps ++ [backoffSleep (attempt + 1)]) (by omega)
      simp only [List.append_assoc, List.singleton_append] at hrec
      simp [downloadGo, backoffAux, h (attempt + 1), hat, hbr, hrec]

lemma downloadGo_total (outcomes : Nat → AttemptOutcome) (m : Nat)
    (h503 : ∀ i ra, outcomes i = AttemptOutcome.http503 ra →
      ∃ n, pyParseInt (ra.getD "30") = some n ∧ 0 ≤ n)
    (hfs : ∀ i, outcomes i ≠ AttemptOutcome.success false) :
    ∀ (fuel attempt : Nat) (sleeps : List Int),
      ∃ r, downloadGo outcomes m attempt fuel sleeps = Except.ok r := by
  intro fuel
  induction fuel with
  | zero =>
    intro attempt sleeps
    exact ⟨(false, m + 1, sleeps), rfl⟩
  | succ f ihf =>
    intro attempt sleeps
    by_cases hat : attempt ≤ m
    · cases ho : outcomes (attempt + 1) with
      | http503 ra =>
        obtain ⟨n, hp, hn⟩ := h503 (attempt + 1) ra ho
        have hneg : ¬ n < 0 := by omega
        obtain ⟨r, hr⟩ := ihf (attempt + 1) (sleeps ++ [n])
        exact ⟨r, by simp [downloadGo, hat, ho, hp, hneg, hr]⟩
      | reqError =>
        by_cases hbr : m < attempt + 1
        · exact ⟨(false, attempt + 1, sleeps), by simp [downloadGo, hat, ho, hbr]⟩
        · obtain ⟨r, hr⟩ := ihf (attempt + 1) (sleeps ++ [backoffSleep (attempt + 1)])
          exact ⟨r, by simp [downloadGo, hat, ho, hbr, hr]⟩
      | success fsOk =>
        cases fsOk with
        | false => exact absurd ho (hfs (attempt + 1))
        | true => exact ⟨(true, attempt + 1, sleeps), by simp [downloadGo, hat, ho]⟩
    · exact ⟨(false, attempt, sleeps), by simp [downloadGo, hat]⟩

/-! ## Driver and path lemmas -/

lemma handle_download_loop_eq_map (summaries : String → Option Summary)
    (dlResult : String → String → Bool) (packages : List PackageRecord)
    (formats : List String) (base : String) (dryRun : Bool) :
    handle_download_loop summaries dlResult packages formats base dryRun
      = packages.map
          (fun p => download_package_formats summaries dlResult p formats base dryRun) := by
  induction packages with
  | nil => rfl
  | cons p rest ih => simp [handle_download_loop, ih]

lemma pySplit1Head_eq_takeWhile : ∀ s : List Char, pySplit1Head '-' s = s.takeWhile (· ≠ '-') := by
  intro s
  induction s with
  | nil => rfl
  | cons c r ih =>
    by_cases h : c = '-'
    · simp [pySplit1Head, List.takeWhile_cons, h]
    · simp [pySplit1Head, List.takeWhile_cons, h, ih]

/-! ## Shared chain-with-repeat characterisation -/

lemma chainRepeatEq (server : String → Option CliPage)
    (steps : List (String × CliPage × String)) (endC : String) (pFin : CliPage)
    (cRep : String) (fuel : Nat)
    (hOK : stepsOK server steps [] endC = true)
    (hstart : startOf steps endC = "*")
    (hfin : server endC = some pFin)
    (hne : (pageItems pFin).isEmpty = false)
    (hrep : next_offset_from_nextpage pFin.nextPage = some cRep)
    (hin : (endSeen steps []).contains cRep = true) :
    fetch_published_packagesT server none (steps.length + (fuel + 1))
      = (some (allRecs steps ++ recsOf (pageItems pFin)),
         traceOf steps 0 ++ [(endC, (allRecs steps).length)]) := by
  unfold fetch_published_packagesT
  rw [← hstart, fetchGoT_chain server steps [] endC [] [] (fuel + 1) hOK,
    fetchGoT_repeat server fuel ([] ++ allRecs steps) endC (endSeen steps [])
      ([] ++ traceOf steps ([] : List PackageRecord).length) pFin cRep hfin hne hrep hin]
  simp

/-! ## Claim C1 -/

/-- Claim C1 (amended): `fetch_published_packages` terminates on every
server whose cursor chain eventually repeats a previously followed cursor:
for every chain of pages whose final page's next cursor `cRep` lies anywhere
in the seen-cursor history (not only the previous cursor), the loop stops
there — the trace shows no request beyond `endC` — and returns exactly the
records of the pages fetched before the repeat, for every sufficient fuel.
(The claim as stated also covers `fetch_packages_for_collection`, which has
no cycle guard at all; see the counterexample.) -/
theorem fetch_published_cycle_guard (server : String → Option CliPage)
    (steps : List (String × CliPage × String)) (endC : String) (pFin : CliPage)
    (cRep : String) (fuel : Nat)
    (hOK : stepsOK server steps [] endC = true)
    (hstart : startOf steps endC = "*")
    (hfin : server endC = some pFin)
    (hne : (pageItems pFin).isEmpty = false)
    (hrep : next_offset_from_nextpage pFin.nextPage = some cRep)
    (hin : (endSeen steps []).contains cRep = true) :
    fetch_published_packagesT server none (steps.length + (fuel + 1))
      = (some (allRecs steps ++ recsOf (pageItems pFin)),
         traceOf steps 0 ++ [(endC, (allRecs steps).length)]) :=
  chainRepeatEq server steps endC pFin cRep fuel hOK hstart hfin hne hrep hin

def c1p0 : CliPage := ⟨some [⟨some "A", none⟩], none, none, some "c1"⟩

def c1p1 : CliPage := ⟨some [⟨some "B", none⟩], none, none, some "c2"⟩

def c1p2 : CliPage := ⟨some [⟨some "C", none⟩], none, none, some "c1"⟩

def c1srv : String → Option CliPage := fun c =>
  if c = "*" then some c1p0
  else if c = "c1" then some c1p1
  else if c = "c2" then some c1p2
  else none

def c1steps : List (String × CliPage × String) := [("*", c1p0, "c1"), ("c1", c1p1, "c2")]

/-- Witness for C1: three pages; the third page's next cursor repeats the
first followed cursor `c1` (not the previous one, `c2`), and the run returns
the records of the three fetched pages after exactly three requests. -/
theorem fetch_published_cycle_guard_witness :
    fetch_published_packagesT c1srv none 3
      = (some [⟨"A", none⟩, ⟨"B", none⟩, ⟨"C", none⟩],
         [("*", 0), ("c1", 1), ("c2", 2)]) :=
  (fetch_published_cycle_guard c1srv c1steps "c2" c1p2 "c1" 0 (by decide) (by decide)
    (by decide) (by decide) (by decide) (by decide)).trans (by decide)

def sqlCycSrv : String → Option SqlPage := fun c =>
  if c = "*" then some ⟨some [⟨some "A", none, none⟩], none, some "c"⟩
  else if c = "c" then some ⟨some [⟨some "A", none, none⟩], none, some "c"⟩
  else none

/-- `fetch_packages_for_collection` has no seen-cursor set, so on a server
whose page at cursor `c` names `c` itself as next cursor the loop never
terminates: for every fuel bound it is still running. -/
lemma sqlCycSrv_never_returns :
    ∀ fuel, fetch_packages_for_collection sqlCycSrv fuel = none := by
  have key : ∀ fuel acc, sqlFetchGo sqlCycSrv fuel acc "c" = none := by
    intro fuel
    induction fuel with
    | zero => intro _; rfl
    | succ f ih => intro acc; exact ih _
  intro fuel
  cases fuel with
  | zero => rfl
  | succ f => exact key f _

/-- Counterexample for C1 as stated: on `sqlCycSrv` the repeated cursor `c`
appears after two page fetches, so a discovery that stopped at the first
repeated cursor would have returned by 25 iterations; instead
`fetch_packages_for_collection` is still looping (and by
`sqlCycSrv_never_returns` it loops at every fuel bound). -/
theorem fetch_packages_for_collection_cycle_counterexample :
    fetch_packages_for_collection sqlCycSrv 25 = none :=
  sqlCycSrv_never_returns 25

/-! ## Claim C2 -/

/-- Claim C2 (amended): for every positive `max_packages` cap,
`fetch_published_packages` returns at most `max_packages` records, and every
page request is issued while the accumulated count is still below the cap —
so once the cap is reached mid-page the function returns at once and no
further page request occurs.  (As stated, the claim also covers
`max_records = 0`, where the code returns one record; see the
counterexample.) -/
theorem fetch_published_max_records_cap (server : String → Option CliPage)
    (m fuel : Nat) (hm : 1 ≤ m) :
    (∀ res, fetch_published_packages server (some m) fuel = some res → res.length ≤ m) ∧
    (∀ e, e ∈ (fetch_published_packagesT server (some m) fuel).2 → e.2 < m) := by
  obtain ⟨h1, h2⟩ := fetchGoT_cap_invariant server m fuel [] "*" [] []
    (by simp only [List.length_nil]; omega)
  refine ⟨h1, ?_⟩
  intro e he
  rcases h2 e he with h | h
  · simp at h
  · exact h

def c2srv : String → Option CliPage := fun c =>
  if c = "*" then some ⟨some [⟨some "A", none⟩], none, none, none⟩ else none

/-- Counterexample for C2 as stated: with `max_packages = 0` the cap check
runs only after the first record is appended, so the run returns one record,
which exceeds the cap. -/
theorem fetch_published_cap_zero_counterexample :
    fetch_published_packages c2srv (some 0) 3 = some [⟨"A", none⟩] ∧
    ¬ (([(⟨"A", none⟩ : PackageRecord)]).length ≤ 0) := by
  constructor
  · decide
  · decide

/-- Witness for C2: a concrete run under cap 1 returns at most one record
and issues every request below the cap. -/
theorem fetch_published_max_records_cap_witness :
    (∀ res, fetch_published_packages c2srv (some 1) 3 = some res → res.length ≤ 1) ∧
    (∀ e, e ∈ (fetch_published_packagesT c2srv (some 1) 3).2 → e.2 < 1) :=
  fetch_published_max_records_cap c2srv 1 3 (by decide)

/-! ## Claim C3 -/

/-- Claim C3 (amended): `download_with_retries` returns a boolean and lets
no exception escape, provided every 503 response carries a `Retry-After`
header that parses as a nonnegative integer (or no header, whose default
`"30"` parses) and no filesystem operation fails.  (As stated — for *any*
header value and filesystem outcome — the claim is false: `int()` on a
malformed header raises `ValueError` past the boundary, see the
counterexample.) -/
theorem download_with_retries_total (outcomes : Nat → AttemptOutcome) (maxRetries : Nat)
    (h503 : ∀ i ra, outcomes i = AttemptOutcome.http503 ra →
      ∃ n, pyParseInt (ra.getD "30") = some n ∧ 0 ≤ n)
    (hfs : ∀ i, outcomes i ≠ AttemptOutcome.success false) :
    ∃ r, download_with_retries outcomes maxRetries = Except.ok r :=
  downloadGo_total outcomes maxRetries h503 hfs (maxRetries + 1) 0 []

/-- Counterexample for C3 as stated: a 503 with `Retry-After: later` makes
`int("later")` raise `ValueError`, which propagates past the function. -/
theorem download_with_retries_raises_counterexample :
    download_with_retries (fun _ => AttemptOutcome.http503 (some "later")) 3 =
      Except.error PyError.valueError := rfl

/-- Witness for C3: an always-503 server without a `Retry-After` header
drives the function to a boolean result. -/
theorem download_with_retries_total_witness :
    ∃ r, download_with_retries (fun _ => AttemptOutcome.http503 none) 1 = Except.ok r :=
  download_with_retries_total (fun _ => AttemptOutcome.http503 none) 1
    (fun _ ra h => by
      injection h with h'
      subst h'
      exact ⟨30, rfl, by decide⟩)
    (fun _ h => AttemptOutcome.noConfusion h)

/-! ## Claim C4 -/

/-- Claim C4 (confirmed): when every attempt fails with a caught
`RequestException` (e.g. HTTP 500), `download_with_retries` returns `False`
after exactly `max_retries + 1` attempts, with the linear backoff sleeps
`5, 10, ...` between them; in particular `max_retries = 3` gives 4
attempts. -/
theorem download_retry_exhaustion (outcomes : Nat → AttemptOutcome) (maxRetries : Nat)
    (h : ∀ i, outcomes i = AttemptOutcome.reqError) :
    download_with_retries outcomes maxRetries
      = Except.ok (false, maxRetries + 1, backoffAux maxRetries 0 (maxRetries + 1)) := by
  have hrun := downloadGo_reqError outcomes maxRetries h (maxRetries + 1) 0 [] (by omega)
  simpa [download_with_retries] using hrun

/-- Witness for C4: `max_retries = 3` and an all-500 server give failure
after exactly 4 attempts with sleeps of 5, 10 and 15 seconds. -/
theorem download_retry_exhaustion_witness :
    download_with_retries (fun _ => AttemptOutcome.reqError) 3
      = Except.ok (false, 4, [5, 10, 15]) :=
  (download_retry_exhaustion (fun _ => AttemptOutcome.reqError) 3 (fun _ => rfl)).trans rfl

/-! ## Claim C5 -/

/-- Claim C5 (confirmed): an attempt answered with HTTP 503 reads
`Retry-After` as an integer number of seconds (defaulting to 30 when the
header is absent), sleeps exactly that long — the sleep is appended to the
trace — and retries with the attempt counter advanced by one, so the 503
consumed one attempt of the budget. -/
theorem download_transient_503 (outcomes : Nat → AttemptOutcome)
    (maxRetries attempt fuel : Nat) (sleeps : List Int) (ra : Option String) (n : Int)
    (hatt : attempt ≤ maxRetries)
    (h503 : outcomes (attempt + 1) = AttemptOutcome.http503 ra)
    (hparse : pyParseInt (ra.getD "30") = some n)
    (hnn : 0 ≤ n) :
    downloadGo outcomes maxRetries attempt (fuel + 1) sleeps
      = downloadGo outcomes maxRetries (attempt + 1) fuel (sleeps ++ [n]) ∧
    (ra = none → n = 30) := by
  constructor
  · have hneg : ¬ n < 0 := by omega
    simp [downloadGo, hatt, h503, hparse, hneg]
  · intro h
    subst h
    have h30 : pyParseInt ((none : Option String).getD "30") = some 30 := rfl
    rw [h30] at hparse
    exact (Option.some.inj hparse).symm

/-- Witness for C5: a 503 with `Retry-After: 2` on the first attempt sleeps
2 seconds and continues as attempt 2 of the same budget. -/
theorem download_transient_503_witness :
    (downloadGo (fun _ => AttemptOutcome.http503 (some "2")) 3 0 (3 + 1) []
      = downloadGo (fun _ => AttemptOutcome.http503 (some "2")) 3 1 3 [2] ∧
     (some "2" = (none : Option String) → (2 : Int) = 30)) :=
  download_transient_503 (fun _ => AttemptOutcome.http503 (some "2")) 3 0 3 [] (some "2") 2
    (by decide) rfl rfl (by decide)

/-! ## Claim C6 -/

/-- Claim C6 (amended): when a page request of `fetch_published_packages`
fails (network or JSON-decode error), discovery stops there and returns the
records accumulated from the pages fetched before the failure, rather than
raising.  (As stated, the claim also covers
`fetch_packages_for_collection`, whose `get_json` has no error handling and
lets the exception propagate; see the counterexample.) -/
theorem fetch_published_partial_on_error (server : String → Option CliPage)
    (steps : List (String × CliPage × String)) (endC : String) (fuel : Nat)
    (hOK : stepsOK server steps [] endC = true)
    (hstart : startOf steps endC = "*")
    (hfin : server endC = none) :
    fetch_published_packagesT server none (steps.length + (fuel + 1))
      = (some (allRecs steps), traceOf steps 0 ++ [(endC, (allRecs steps).length)]) := by
  unfold fetch_published_packagesT
  rw [← hstart, fetchGoT_chain server steps [] endC [] [] (fuel + 1) hOK,
    fetchGoT_error server none fuel ([] ++ allRecs steps) endC (endSeen steps [])
      ([] ++ traceOf steps ([] : List PackageRecord).length) hfin]
  simp

def c6srv : String → Option CliPage := fun c =>
  if c = "*" then some c1p0 else none

def c6steps : List (String × CliPage × String) := [("*", c1p0, "c1")]

/-- Witness for C6: the request for the second page fails and the run
returns the first page's record. -/
theorem fetch_published_partial_on_error_witness :
    fetch_published_packagesT c6srv none 2
      = (some [⟨"A", none⟩], [("*", 0), ("c1", 1)]) :=
  (fetch_published_partial_on_error c6srv c6steps "c1" 0 (by decide) (by decide)
    (by decide)).trans (by decide)

def sqlErrSrv : String → Option SqlPage := fun c =>
  if c = "*" then some ⟨some [⟨some "A", none, none⟩], none, some "c"⟩ else none

/-- Counterexample for C6 as stated: in `fetch_packages_for_collection` the
failing second page request propagates the exception out of the function
instead of returning the one accumulated record. -/
theorem fetch_packages_for_collection_raises_counterexample :
    fetch_packages_for_collection sqlErrSrv 5 = some (Except.error ()) := rfl

/-! ## Claim C7 -/

/-- Claim C7 (amended): `fetch_published_packages` performs no
deduplication — its output is exactly the records of the fetched pages in
order — so the output ids are pairwise distinct exactly when the server's
emitted ids over the fetched pages are; here stated for a run that halts at
a repeated cursor.  (As stated — distinct ids for *every* server, including
one that re-emits an item on several pages — the claim is false; see the
counterexample.) -/
theorem fetch_published_nodup_ids (server : String → Option CliPage)
    (steps : List (String × CliPage × String)) (endC : String) (pFin : CliPage)
    (cRep : String) (fuel : Nat) (res : List PackageRecord)
    (hOK : stepsOK server steps [] endC = true)
    (hstart : startOf steps endC = "*")
    (hfin : server endC = some pFin)
    (hne : (pageItems pFin).isEmpty = false)
    (hrep : next_offset_from_nextpage pFin.nextPage = some cRep)
    (hin : (endSeen steps []).contains cRep = true)
    (hnodup : ((allRecs steps ++ recsOf (pageItems pFin)).map PackageRecord.package_id).Nodup)
    (hres : fetch_published_packages server none (steps.length + (fuel + 1)) = some res) :
    (res.map PackageRecord.package_id).Nodup := by
  have heq := chainRepeatEq server steps endC pFin cRep fuel hOK hstart hfin hne hrep hin
  unfold fetch_published_packages at hres
  rw [heq] at hres
  simp only [Option.some.injEq] at hres
  subst hres
  exact hnodup

def c7p0 : CliPage := ⟨some [⟨some "A", none⟩], none, none, some "c1"⟩

def c7p1 : CliPage := ⟨some [⟨some "B", none⟩], none, none, some "c1"⟩

def c7srv : String → Option CliPage := fun c =>
  if c = "*" then some c7p0
  else if c = "c1" then some c7p1
  else none

def c7steps : List (String × CliPage × String) := [("*", c7p0, "c1")]

/-- Witness for C7: a server with globally distinct ids yields an output
with pairwise distinct ids. -/
theorem fetch_published_nodup_ids_witness :
    (([(⟨"A", none⟩ : PackageRecord), ⟨"B", none⟩]).map PackageRecord.package_id).Nodup :=
  fetch_published_nodup_ids c7srv c7steps "c1" c7p1 "c1" 0 [⟨"A", none⟩, ⟨"B", none⟩]
    (by decide) (by decide) (by decide) (by decide) (by decide) (by decide) (by decide)
    (by decide)

def dupSrv : String → Option CliPage := fun c =>
  if c = "*" then some ⟨some [⟨some "A", none⟩], none, none, some "c1"⟩
  else if c = "c1" then some ⟨some [⟨some "A", none⟩], none, none, none⟩
  else none

/-- Counterexample for C7 as stated: a misbehaving server that emits the
item `A` on two pages makes the run return the id `A` twice. -/
theorem fetch_published_duplicate_ids_counterexample :
    fetch_published_packages dupSrv none 5 = some [⟨"A", none⟩, ⟨"A", none⟩] ∧
    ¬ (([(⟨"A", none⟩ : PackageRecord), ⟨"A", none⟩]).map PackageRecord.package_id).Nodup := by
  constructor
  · decide
  · decide

/-! ## Claim C8 -/

/-- Claim C8 (confirmed): the download driver processes every discovered
record independently: the output has one entry per record, a record whose
summary fetch fails (or is falsy) is reported as enrich-failed with no
download dispatched for it, and every other record's entry is exactly its
own independent processing — one bad record never aborts the run. -/
theorem driver_fault_isolation (summaries : String → Option Summary)
    (dlResult : String → String → Bool) (packages : List PackageRecord)
    (formats : List String) (base : String) (dryRun : Bool) (i : Nat) (pkg : PackageRecord)
    (hfmt : (fmtListOf formats).isEmpty = false)
    (hpkg : packages.get? i = some pkg)
    (hfail : summaries pkg.package_id = none) :
    (handle_download_loop summaries dlResult packages formats base dryRun).length
        = packages.length ∧
    (handle_download_loop summaries dlResult packages formats base dryRun).get? i
        = some (PkgStatus.enrichFailed, []) ∧
    (∀ j, (handle_download_loop summaries dlResult packages formats base dryRun).get? j
        = (packages.get? j).map
            (fun p => download_package_formats summaries dlResult p formats base dryRun)) := by
  rw [handle_download_loop_eq_map]
  refine ⟨by simp, ?_, ?_⟩
  · rw [List.get?_map, hpkg]
    simp [download_package_formats, hfmt, hfail]
  · intro j
    rw [List.get?_map]

def c8summaries : String → Option Summary := fun pid =>
  if pid = "P3" then none else some ⟨some [("pdfLink", "u")]⟩

def c8packages : List PackageRecord :=
  [⟨"P1", none⟩, ⟨"P2", none⟩, ⟨"P3", none⟩, ⟨"P4", none⟩, ⟨"P5", none⟩]

/-- Witness for C8: five records of which the third's enrichment fails —
all five are reported, the third as enrich-failed, the rest processed. -/
theorem driver_fault_isolation_witness :
    (handle_download_loop c8summaries (fun _ _ => true) c8packages ["pdf"] "ROOT" true).length
        = c8packages.length ∧
    (handle_download_loop c8summaries (fun _ _ => true) c8packages ["pdf"] "ROOT" true).get? 2
        = some (PkgStatus.enrichFailed, []) ∧
    (∀ j, (handle_download_loop c8summaries (fun _ _ => true) c8packages ["pdf"] "ROOT" true).get? j
        = (c8packages.get? j).map
            (fun p => download_package_formats c8summaries (fun _ _ => true) p ["pdf"] "ROOT" true)) :=
  driver_fault_isolation c8summaries (fun _ _ => true) c8packages ["pdf"] "ROOT" true 2
    ⟨"P3", none⟩ (by decide) (by decide) (by decide)

/-! ## Claim C9 -/

/-- Claim C9 (confirmed): for every record id containing a separator, the
destination path is
`<base>/<id prefix before the first dash>/<year derived by
package_year_from_date>/<id>.<kind>`; the year derivation tries the three
date formats, falls back to the first four characters when they are digits,
and otherwise yields the sentinel `unknown_year`. -/
theorem destination_path_derivation (base pid : String) (d : Option String) (fmt : String)
    (hdash : pid.toList.contains '-' = true) :
    destinationPath base ⟨pid, d⟩ fmt
      = base ++ "/" ++ String.mk (pid.toList.takeWhile (· ≠ '-')) ++ "/" ++
        package_year_from_date d ++ "/" ++ pid ++ "." ++ fmt := by
  have hd : '-' ∈ pid.data := by simpa [String.toList] using hdash
  unfold destinationPath package_collection_code
  simp [hd, pySplit1Head_eq_takeWhile]

/-- Witness for C9: `BILLS-116hr34enr` issued `2019-05-01` as `pdf` resolves
to `.../BILLS/2019/BILLS-116hr34enr.pdf`, and an unparseable date resolves
under `unknown_year`. -/
theorem destination_path_derivation_witness :
    "BILLS-116hr34enr".toList.contains '-' = true ∧
    destinationPath "ROOT" ⟨"BILLS-116hr34enr", some "2019-05-01"⟩ "pdf" =
      "ROOT/BILLS/2019/BILLS-116hr34enr.pdf" ∧
    destinationPath "ROOT" ⟨"BILLS-116hr34enr", some "May 1, 2019"⟩ "pdf" =
      "ROOT/BILLS/unknown_year/BILLS-116hr34enr.pdf" :=
  ⟨by decide,
   (destination_path_derivation "ROOT" "BILLS-116hr34enr" (some "2019-05-01") "pdf"
      (by decide)).trans (by decide),
   (destination_path_derivation "ROOT" "BILLS-116hr34enr" (some "May 1, 2019") "pdf"
      (by decide)).trans (by decide)⟩

/-! ## Claim C10 -/

/-- Claim C10 (confirmed): the initial sentinel cursor `*` is never placed
in the seen-cursor set, so when the first page names `*` as its next cursor
the loop follows it, requests the first page a second time and appends its
records again, and halts only when `*` comes back a second time: the run
returns the page's records twice after exactly two requests for `*`. -/
theorem sentinel_cursor_not_in_history (server : String → Option CliPage) (p : CliPage)
    (fuel : Nat) (hs : server "*" = some p) (hne : (pageItems p).isEmpty = false)
    (hn : next_offset_from_nextpage p.nextPage = some "*") :
    fetch_published_packagesT server none (fuel + 2)
      = (some (recsOf (pageItems p) ++ recsOf (pageItems p)),
         [("*", 0), ("*", (recsOf (pageItems p)).length)]) := by
  unfold fetch_published_packagesT
  have h1 := fetchGoT_step server (fuel + 1) [] "*" [] [] p "*" hs hne hn rfl
  have h2 := fetchGoT_repeat server fuel ([] ++ recsOf (pageItems p)) "*" ("*" :: [])
    ([] ++ [("*", ([] : List PackageRecord).length)]) p "*" hs hne hn rfl
  rw [show fuel + 2 = (fuel + 1) + 1 from rfl, h1, h2]
  simp

def sentSrv : String → Option CliPage := fun c =>
  if c = "*" then some ⟨some [⟨some "A", none⟩], none, none, some "*"⟩ else none

/-- Witness for C10: a first page whose next cursor is `*` is fetched twice
and its record is emitted twice. -/
theorem sentinel_cursor_not_in_history_witness :
    fetch_published_packagesT sentSrv none 2
      = (some [⟨"A", none⟩, ⟨"A", none⟩], [("*", 0), ("*", 1)]) :=
  (sentinel_cursor_not_in_history sentSrv ⟨some [⟨some "A", none⟩], none, none, some "*"⟩ 0
    (by decide) (by decide) (by decide)).trans (by decide)
